import Mathlib

/-!
# Shallow embedding of the multi-agent QA demo

This file embeds the two core Python modules of the repository:

* `best_program.py` — the 2-agent pipeline (`run_multi_agent`), the text
  normalizer (`_normalize`, `_is_correct`), the fixed eval set (`EVAL_SET`)
  and the benchmark loop (`run_benchmark`);
* `multi_agent_evaluator.py` — the candidate loader / optimizer adapter
  (`evaluate`).

Python numbers are modelled as rationals, the external chat-completion
provider as a pure oracle function, and dynamic module loading as an
abstract load outcome.  Character-level operations (`str.lower`,
`str.isalnum`, `str.isspace`) are modelled by Lean's ASCII `Char`
predicates, which agree with Python on the ASCII range used throughout
the repository.
-/

namespace MultiAgent

/-- A Python value stored under a dict key, as far as `float()` is concerned:
`num q` is an `int`/`float` with exact value `q`; `nonNum tag` stands for any
value on which the builtin `float()` raises (e.g. `None`, a list, or a
non-numeric string). -/
inductive PyVal where
  | num (q : ℚ)
  | nonNum (tag : String)
deriving DecidableEq

/-- The builtin `float(v)`: returns the numeric value, or fails (raises) on a
non-convertible value. -/
def pyFloat : PyVal → Option ℚ
  | .num q => some q
  | .nonNum _ => none

/-- The builtin `int(q)` on a number: truncation toward zero. -/
def pyInt (q : ℚ) : Int := q.num.tdiv (q.den : Int)

/-- One sub-configuration dict (`config["planner"]` or `config["solver"]`):
a `system_prompt` string and an optional numeric `max_tokens` key
(`none` models the key being absent from the dict). -/
structure StageConfig where
  system_prompt : String
  max_tokens : Option ℚ
deriving DecidableEq

/-- The `AGENT_CONFIG`-shaped dict: `use_planner` flag plus the two
sub-configurations. -/
structure AgentConfig where
  use_planner : Bool
  planner : StageConfig
  solver : StageConfig
deriving DecidableEq

/-- The arguments of one `_call_llm` invocation (one chat-completion request):
system prompt, user content, and the token budget passed to the API. -/
structure LLMCall where
  system_prompt : String
  user_content : String
  max_tokens : Int
deriving DecidableEq

/-- The external language model at the `_call_llm` boundary: a deterministic
response for each (system prompt, user content, max_tokens) request. -/
abbrev LLMOracle := String → String → Int → String

/-- The literal `AGENT_CONFIG` of `best_program.py`. -/
def AGENT_CONFIG : AgentConfig :=
  { use_planner := true
    planner :=
      { system_prompt := "You are a planning assistant. Given a question, write 2-4 short steps that would help answer the question. Keep steps concise."
        max_tokens := some 128 }
    solver :=
      { system_prompt := "You are an intelligent assistant. Use the plan provided to answer the question as accurately as possible."
        max_tokens := some 32 } }

/-- `int(planner_cfg.get("max_tokens", 128))`: the token budget of the planner
call. -/
def plannerBudget (s : StageConfig) : Int := pyInt (s.max_tokens.getD 128)

/-- `int(solver_cfg.get("max_tokens", 64))`: the token budget of the solver
call. -/
def solverBudget (s : StageConfig) : Int := pyInt (s.max_tokens.getD 64)

/-- `run_multi_agent(question, config)`: optional planner call, then the solver
call whose response is returned.  `config = none` models the Python default
argument `config=None`, which falls back to the global `AGENT_CONFIG`. -/
def run_multi_agent (llm : LLMOracle) (question : String)
    (config : Option AgentConfig) : String :=
  let cfg := config.getD AGENT_CONFIG
  let plan_text :=
    if cfg.use_planner then
      llm cfg.planner.system_prompt ("Question: " ++ question)
        (plannerBudget cfg.planner)
    else ""
  let solver_input := "Question: " ++ question
  let solver_input :=
    if plan_text.isEmpty then solver_input
    else solver_input ++ "\nPlan: " ++ plan_text
  llm cfg.solver.system_prompt solver_input (solverBudget cfg.solver)

/-- Instrumented form of `run_multi_agent`: same result, paired with the list
of `_call_llm` invocations the run performs, in order. -/
def run_multi_agent_trace (llm : LLMOracle) (question : String)
    (config : Option AgentConfig) : String × List LLMCall :=
  let cfg := config.getD AGENT_CONFIG
  let plannerCalls : List LLMCall :=
    if cfg.use_planner then
      [⟨cfg.planner.system_prompt, "Question: " ++ question,
        plannerBudget cfg.planner⟩]
    else []
  let plan_text :=
    if cfg.use_planner then
      llm cfg.planner.system_prompt ("Question: " ++ question)
        (plannerBudget cfg.planner)
    else ""
  let solver_input := "Question: " ++ question
  let solver_input :=
    if plan_text.isEmpty then solver_input
    else solver_input ++ "\nPlan: " ++ plan_text
  (llm cfg.solver.system_prompt solver_input (solverBudget cfg.solver),
    plannerCalls ++ [⟨cfg.solver.system_prompt, solver_input,
      solverBudget cfg.solver⟩])

/-- The `solver_input` string built inside `run_multi_agent`: the question,
plus the plan line exactly when the captured plan is non-empty. -/
def solverInput (llm : LLMOracle) (question : String) (cfg : AgentConfig) : String :=
  let plan_text :=
    if cfg.use_planner then
      llm cfg.planner.system_prompt ("Question: " ++ question)
        (plannerBudget cfg.planner)
    else ""
  if plan_text.isEmpty then "Question: " ++ question
  else "Question: " ++ question ++ "\nPlan: " ++ plan_text

/-- One entry of `EVAL_SET`. -/
structure EvalExample where
  question : String
  expected_substring : String
deriving DecidableEq

/-- The literal `EVAL_SET` of `best_program.py` (7 entries). -/
def EVAL_SET : List EvalExample :=
  [ { question := "What is the capital of France?"
      expected_substring := "paris" },
    { question := "Who wrote the novel Pride and Prejudice?"
      expected_substring := "jane austen" },
    { question := "What is the chemical formula for water?"
      expected_substring := "h2o" },
    { question := "What is the capital of Italy?"
      expected_substring := "rome" },
    { question := "What is the largest ocean on Earth?"
      expected_substring := "pacific" },
    { question := "Who painted the Mona Lisa?"
      expected_substring := "leonardo da vinci" },
    { question := "What is the boiling point of water?"
      expected_substring := "100" } ]

/-- `_normalize(text)`: `"".join(ch.lower() for ch in text if ch.isalnum() or
ch.isspace())`.  Rendered as the join of the one-character strings obtained by
lower-casing each kept character.  The character classes and the case mapping
are modelled in their ASCII (basic latin) semantics, on which Lean's `Char`
predicates agree with Python; `_normalize_unicode` below refines this model at
the one non-ASCII code point where Python's `str.lower()` is not
length-preserving. -/
def _normalize (text : String) : String :=
  String.join ((text.data.filter
    (fun ch => ch.isAlphanum || ch.isWhitespace)).map
      (fun ch => (Char.toLower ch).toString))

/-- Python's `str.lower()` on one character, as the character list of the
returned string: on U+0130 (LATIN CAPITAL LETTER I WITH DOT ABOVE) it yields
`"i"` followed by U+0307 (COMBINING DOT ABOVE); on the basic latin range it
agrees with `Char.toLower`.  Other non-ASCII case mappings are outside the
modelled subdomain and fall back to `Char.toLower`. -/
def pyLower (c : Char) : List Char :=
  if c = 'İ' then ['i', '̇'] else [Char.toLower c]

/-- Python's `str.isalnum` on one character, on the same subdomain: ASCII
alphanumerics plus the letter U+0130 (Unicode category Lu); the combining
mark U+0307 (category Mn) is not alphanumeric in Python. -/
def pyIsAlnum (c : Char) : Bool :=
  c.isAlphanum || c = 'İ'

/-- Python's `str.isspace` on one character, on the same subdomain. -/
def pyIsSpace (c : Char) : Bool :=
  c.isWhitespace

/-- `_normalize(text)` again, with the character primitives refined beyond
ASCII to cover U+0130/U+0307, the code points on which Python's case mapping
makes the source function non-idempotent.  On all-ASCII strings it coincides
with `_normalize` (proved below). -/
def _normalize_unicode (text : String) : String :=
  String.join ((text.data.filter
    (fun ch => pyIsAlnum ch || pyIsSpace ch)).map
      (fun ch => String.mk (pyLower ch)))

/-- Python's `needle in hay` on strings: contiguous substring containment. -/
def strContains (hay needle : String) : Bool :=
  decide (needle.data <:+: hay.data)

/-- `_is_correct(answer, expected_substring)`: normalized expected substring
contained in the normalized answer. -/
def _is_correct (answer expected_substring : String) : Bool :=
  strContains (_normalize answer) (_normalize expected_substring)

/-- The dict `run_benchmark` returns (`success_rate` and `num_examples`, both
Python floats). -/
structure EvaluationResult where
  success_rate : ℚ
  num_examples : ℚ
deriving DecidableEq

/-- `run_benchmark(verbose)`: run the pipeline on every `EVAL_SET` entry with
the default (global) config, count correct answers, and return the metrics
dict.  `verbose` only controls printing and does not affect the result. -/
def run_benchmark (llm : LLMOracle) (verbose : Bool) : EvaluationResult :=
  let correct : Nat := EVAL_SET.foldl
    (fun correct ex =>
      if _is_correct (run_multi_agent llm ex.question none)
          ex.expected_substring
      then correct + 1 else correct) 0
  let success_rate : ℚ :=
    if EVAL_SET.isEmpty then 0
    else (correct : ℚ) / (EVAL_SET.length : ℚ)
  let _ := verbose
  { success_rate := success_rate
    num_examples := (EVAL_SET.length : ℚ) }

/-- The number of eval examples the pipeline answers correctly under the given
oracle (the value of `correct` at the end of the `run_benchmark` loop). -/
def correctCount (llm : LLMOracle) : Nat :=
  EVAL_SET.foldl
    (fun correct ex =>
      if _is_correct (run_multi_agent llm ex.question none)
          ex.expected_substring
      then correct + 1 else correct) 0

/-- The metrics dict a candidate's `run_benchmark()` returns, as far as
`evaluate` inspects it: only the `"success_rate"` key matters (`none` models
the key being absent). -/
structure MetricsDict where
  success_rate : Option PyVal
deriving DecidableEq

/-- A successfully imported candidate module: either it has a `run_benchmark`
attribute — modelled together with the metrics dict that calling it returns —
or it does not (`none`). -/
structure PyModule where
  run_benchmark : Option MetricsDict
deriving DecidableEq

/-- Outcome of `_load_program(path)`: `failure` models the `ImportError`
raised when the spec or loader cannot be created (or the module body fails to
execute); `loaded m` is a successful dynamic import. -/
inductive LoadOutcome where
  | failure
  | loaded (m : PyModule)
deriving DecidableEq

/-- The distinct ways `evaluate` fails: `loadError` is the `ImportError` from
`_load_program`; `contractError` is the `AttributeError` raised when the
module lacks `run_benchmark`; `typeError` is the `TypeError`/`ValueError`
raised by `float()` on a non-numeric `success_rate` value. -/
inductive EvalError where
  | loadError
  | contractError
  | typeError
deriving DecidableEq

/-- The dict `evaluate` returns on success. -/
structure ScoreReport where
  score : ℚ
  combined_score : ℚ
  success_rate : ℚ
deriving DecidableEq

/-- `evaluate(program_path)` of `multi_agent_evaluator.py`, with the dynamic
module loading abstracted into its outcome: propagate a load failure, raise on a
missing `run_benchmark` attribute, then convert
`metrics.get("success_rate", 0.0)` with `float()` and return the three-field
score dict. -/
def evaluate : LoadOutcome → Except EvalError ScoreReport
  | .failure => .error .loadError
  | .loaded m =>
    match m.run_benchmark with
    | none => .error .contractError
    | some metrics =>
      match pyFloat (metrics.success_rate.getD (.num 0)) with
      | none => .error .typeError
      | some success_rate =>
        .ok { score := success_rate
              combined_score := success_rate
              success_rate := success_rate }

/-! ## Helper lemmas -/

/-- `Char.toNat` determines the character. -/
theorem char_toNat_inj {c d : Char} (h : c.toNat = d.toNat) : c = d :=
  Char.ext (UInt32.toNat.inj h)

/-- `Char.ofNat` on a valid code point round-trips through `toNat`. -/
theorem char_toNat_ofNat_valid {n : Nat} (h : n.isValidChar) :
    (Char.ofNat n).toNat = n := by
  rw [Char.ofNat, dif_pos h]
  rfl

/-- Code-point characterization of `Char.isWhitespace`. -/
theorem char_isWhitespace_iff (c : Char) :
    c.isWhitespace = true ↔
      c.toNat = 32 ∨ c.toNat = 9 ∨ c.toNat = 13 ∨ c.toNat = 10 := by
  simp only [Char.isWhitespace, Bool.or_eq_true, decide_eq_true_eq]
  constructor
  · rintro (((h | h) | h) | h) <;> subst h <;> simp [Char.toNat]
  · rintro (h | h | h | h)
    · exact Or.inl (Or.inl (Or.inl (char_toNat_inj h)))
    · exact Or.inl (Or.inl (Or.inr (char_toNat_inj h)))
    · exact Or.inl (Or.inr (char_toNat_inj h))
    · exact Or.inr (char_toNat_inj h)

/-- Code-point characterization of `Char.toLower`: shift the basic latin
upper-case range by 32, leave everything else unchanged. -/
theorem char_toNat_toLower (c : Char) :
    (Char.toLower c).toNat =
      if 65 ≤ c.toNat ∧ c.toNat ≤ 90 then c.toNat + 32 else c.toNat := by
  by_cases h : 65 ≤ c.toNat ∧ c.toNat ≤ 90
  · rw [if_pos h]
    show (if c.toNat ≥ 65 ∧ c.toNat ≤ 90 then Char.ofNat (c.toNat + 32) else c).toNat
      = c.toNat + 32
    rw [if_pos h]
    exact char_toNat_ofNat_valid (Or.inl (by omega))
  · rw [if_neg h]
    show (if c.toNat ≥ 65 ∧ c.toNat ≤ 90 then Char.ofNat (c.toNat + 32) else c).toNat
      = c.toNat
    rw [if_neg h]

/-- Code-point characterization of `Char.isUpper`. -/
theorem char_isUpper_iff (c : Char) :
    c.isUpper = true ↔ 65 ≤ c.toNat ∧ c.toNat ≤ 90 := by
  have h65 : (65 : UInt32).toNat = 65 := rfl
  have h90 : (90 : UInt32).toNat = 90 := rfl
  simp only [Char.isUpper, ge_iff_le, Bool.and_eq_true, decide_eq_true_eq,
    UInt32.le_def.trans BitVec.le_def, h65, h90]
  rfl

/-- Code-point characterization of `Char.isLower`. -/
theorem char_isLower_iff (c : Char) :
    c.isLower = true ↔ 97 ≤ c.toNat ∧ c.toNat ≤ 122 := by
  have h97 : (97 : UInt32).toNat = 97 := rfl
  have h122 : (122 : UInt32).toNat = 122 := rfl
  simp only [Char.isLower, ge_iff_le, Bool.and_eq_true, decide_eq_true_eq,
    UInt32.le_def.trans BitVec.le_def, h97, h122]
  rfl

/-- Code-point characterization of `Char.isDigit`. -/
theorem char_isDigit_iff (c : Char) :
    c.isDigit = true ↔ 48 ≤ c.toNat ∧ c.toNat ≤ 57 := by
  have h48 : (48 : UInt32).toNat = 48 := rfl
  have h57 : (57 : UInt32).toNat = 57 := rfl
  simp only [Char.isDigit, ge_iff_le, Bool.and_eq_true, decide_eq_true_eq,
    UInt32.le_def.trans BitVec.le_def, h48, h57]
  rfl

/-- Code-point characterization of `Char.isAlphanum`. -/
theorem char_isAlphanum_iff (c : Char) :
    c.isAlphanum = true ↔
      (48 ≤ c.toNat ∧ c.toNat ≤ 57) ∨ (65 ≤ c.toNat ∧ c.toNat ≤ 90) ∨
        (97 ≤ c.toNat ∧ c.toNat ≤ 122) := by
  simp only [Char.isAlphanum, Char.isAlpha, Bool.or_eq_true,
    char_isUpper_iff, char_isLower_iff, char_isDigit_iff]
  tauto

/-- `Char.toLower` is idempotent. -/
theorem char_toLower_toLower (c : Char) :
    c.toLower.toLower = c.toLower := by
  apply char_toNat_inj
  rw [char_toNat_toLower c.toLower, char_toNat_toLower c]
  split_ifs <;> omega

/-- Lower-casing preserves the keep predicate of `_normalize`. -/
theorem char_keep_toLower (c : Char) :
    (c.toLower.isAlphanum || c.toLower.isWhitespace) =
      (c.isAlphanum || c.isWhitespace) := by
  rw [Bool.eq_iff_iff]
  simp only [Bool.or_eq_true, char_isAlphanum_iff, char_isWhitespace_iff,
    char_toNat_toLower]
  split_ifs <;> omega

/-- Flattening a list of singleton lists is a map. -/
theorem flatten_map_singleton {α β : Type} (f : α → β) (l : List α) :
    (l.map (fun a => [f a])).flatten = l.map f := by
  induction l with
  | nil => rfl
  | cons x xs ih => simp [ih]

/-- The character list underlying `_normalize`: filter for alphanumeric or
whitespace characters, then lower-case each kept character. -/
theorem normalize_data (s : String) :
    (_normalize s).data =
      (s.data.filter (fun c => c.isAlphanum || c.isWhitespace)).map
        Char.toLower := by
  unfold _normalize
  rw [String.data_join]
  generalize s.data.filter (fun c => c.isAlphanum || c.isWhitespace) = l
  rw [List.map_map]
  have : (String.data ∘ fun ch => (Char.toLower ch).toString) =
      fun ch => [Char.toLower ch] := rfl
  rw [this, flatten_map_singleton]

/-- List form of idempotence: a normalized character list is a fixed point of
the filter-and-lower pass. -/
theorem normalize_data_idem (l : List Char) :
    ((l.filter (fun c => c.isAlphanum || c.isWhitespace)).map Char.toLower
      |>.filter (fun c => c.isAlphanum || c.isWhitespace)).map Char.toLower =
    (l.filter (fun c => c.isAlphanum || c.isWhitespace)).map Char.toLower := by
  set lf := l.filter (fun c => c.isAlphanum || c.isWhitespace) with hlf
  have hkeep : (lf.map Char.toLower).filter
      (fun c => c.isAlphanum || c.isWhitespace) = lf.map Char.toLower := by
    rw [List.filter_eq_self]
    intro a ha
    rcases List.mem_map.mp ha with ⟨c, hc, rfl⟩
    rw [hlf] at hc
    have hcp : (c.isAlphanum || c.isWhitespace) = true :=
      (List.mem_filter.mp hc).2
    rw [char_keep_toLower]
    exact hcp
  rw [hkeep, List.map_map]
  exact List.map_congr_left (fun c _ => char_toLower_toLower c)

/-- ASCII characters are distinct from U+0130. -/
theorem char_ne_u0130_of_ascii {c : Char} (h : c.toNat < 128) :
    c ≠ 'İ' := by
  intro he
  subst he
  exact absurd h (by decide)

/-- On ASCII characters `pyLower` is the singleton of `Char.toLower`. -/
theorem pyLower_ascii (c : Char) (h : c.toNat < 128) :
    pyLower c = [Char.toLower c] := by
  rw [pyLower, if_neg (char_ne_u0130_of_ascii h)]

/-- On ASCII characters the refined keep predicate agrees with the ASCII
one. -/
theorem pyKeep_ascii (c : Char) (h : c.toNat < 128) :
    (pyIsAlnum c || pyIsSpace c) = (c.isAlphanum || c.isWhitespace) := by
  rw [pyIsAlnum, pyIsSpace, decide_eq_false (char_ne_u0130_of_ascii h)]
  simp

/-- On all-ASCII strings the refined normalizer coincides with the ASCII
model. -/
theorem normalize_unicode_eq_ascii (s : String)
    (h : ∀ c ∈ s.data, c.toNat < 128) :
    _normalize_unicode s = _normalize s := by
  unfold _normalize_unicode _normalize
  congr 1
  rw [List.filter_congr (fun c hc => pyKeep_ascii c (h c hc))]
  apply List.map_congr_left
  intro c hc
  rw [pyLower_ascii c (h c (List.mem_filter.mp hc).1)]
  rfl

/-- `Char.toLower` maps the ASCII range into itself. -/
theorem char_toLower_ascii {c : Char} (h : c.toNat < 128) :
    c.toLower.toNat < 128 := by
  rw [char_toNat_toLower]
  split <;> omega

/-- `_normalize` of an all-ASCII string is all-ASCII. -/
theorem normalize_chars_ascii (s : String)
    (h : ∀ c ∈ s.data, c.toNat < 128) :
    ∀ c ∈ (_normalize s).data, c.toNat < 128 := by
  intro c hc
  rw [normalize_data] at hc
  rcases List.mem_map.mp hc with ⟨c0, hc0, rfl⟩
  exact char_toLower_ascii (h c0 (List.mem_filter.mp hc0).1)

/-- Closed form of `run_benchmark`: the returned dict in terms of
`correctCount` and the eval-set length. -/
theorem run_benchmark_eq (llm : LLMOracle) (verbose : Bool) :
    run_benchmark llm verbose =
      { success_rate := (correctCount llm : ℚ) / (EVAL_SET.length : ℚ)
        num_examples := (EVAL_SET.length : ℚ) } := by
  have h : EVAL_SET.isEmpty = false := rfl
  simp only [run_benchmark, correctCount, h, Bool.false_eq_true, if_false]

/-- A conditional counter over a list is bounded by the list length. -/
theorem foldl_count_le {α : Type} (f : α → Bool) (l : List α) (init : ℕ) :
    l.foldl (fun a x => if f x then a + 1 else a) init ≤ init + l.length := by
  induction l generalizing init with
  | nil => simp
  | cons x xs ih =>
    simp only [List.foldl_cons, List.length_cons]
    refine le_trans (ih _) ?_
    split <;> omega

/-! ## Claim theorems -/

/-- C1: for every candidate module that loads successfully and exposes
`run_benchmark` returning a dict with a numeric `success_rate`, `evaluate`
returns a report whose `score`, `combined_score` and `success_rate` all equal
that value. -/
theorem C1_evaluate_score_fields (m : PyModule) (metrics : MetricsDict) (q : ℚ)
    (hrb : m.run_benchmark = some metrics)
    (hsr : metrics.success_rate = some (PyVal.num q)) :
    evaluate (.loaded m) =
      .ok { score := q, combined_score := q, success_rate := q } := by
  simp [evaluate, hrb, hsr, pyFloat]

/-- Witness for C1 at a concrete module reporting `success_rate = 3/7`. -/
theorem C1_witness :
    ({ run_benchmark := some { success_rate := some (PyVal.num (3 / 7)) } }
        : PyModule).run_benchmark =
      some { success_rate := some (PyVal.num (3 / 7)) }
  ∧ ({ success_rate := some (PyVal.num (3 / 7)) }
        : MetricsDict).success_rate = some (PyVal.num (3 / 7))
  ∧ evaluate
      (.loaded { run_benchmark := some { success_rate := some (PyVal.num (3 / 7)) } }) =
      .ok { score := 3 / 7, combined_score := 3 / 7, success_rate := 3 / 7 } :=
  ⟨rfl, rfl, C1_evaluate_score_fields _ _ _ rfl rfl⟩

/-- C2: every `run_benchmark` result has `num_examples` equal to the eval-set
length, which is 7; its `success_rate` is the correct count divided by
`num_examples` (positive here); and the rate lies in the interval from 0
to 1. -/
theorem C2_benchmark_invariants (llm : LLMOracle) (verbose : Bool) :
    (run_benchmark llm verbose).num_examples = (EVAL_SET.length : ℚ)
  ∧ EVAL_SET.length = 7
  ∧ (0 < (run_benchmark llm verbose).num_examples →
       (run_benchmark llm verbose).success_rate =
         (correctCount llm : ℚ) / (run_benchmark llm verbose).num_examples)
  ∧ 0 ≤ (run_benchmark llm verbose).success_rate
  ∧ (run_benchmark llm verbose).success_rate ≤ 1 := by
  have heq := run_benchmark_eq llm verbose
  have hlen : EVAL_SET.length = 7 := rfl
  have hlenQ : ((EVAL_SET.length : ℕ) : ℚ) = 7 := by rw [hlen]; norm_num
  have hcc : correctCount llm ≤ 7 := by
    have := foldl_count_le
      (fun ex => _is_correct (run_multi_agent llm ex.question none)
        ex.expected_substring) EVAL_SET 0
    simpa [correctCount, hlen] using this
  refine ⟨by rw [heq], hlen, fun _ => by rw [heq], ?_, ?_⟩
  · rw [heq]
    show (0 : ℚ) ≤ (correctCount llm : ℚ) / ((EVAL_SET.length : ℕ) : ℚ)
    exact div_nonneg (Nat.cast_nonneg _) (by rw [hlenQ]; norm_num)
  · rw [heq]
    show (correctCount llm : ℚ) / ((EVAL_SET.length : ℕ) : ℚ) ≤ 1
    rw [div_le_one (by rw [hlenQ]; norm_num)]
    rw [hlenQ]
    exact_mod_cast hcc

/-- Witness for C2 under the oracle that always answers the empty string. -/
theorem C2_witness :
    0 < (run_benchmark (fun _ _ _ => "") false).num_examples
  ∧ (run_benchmark (fun _ _ _ => "") false).success_rate =
      (correctCount (fun _ _ _ => "") : ℚ) /
        (run_benchmark (fun _ _ _ => "") false).num_examples := by
  have h := C2_benchmark_invariants (fun _ _ _ => "") false
  have hpos : 0 < (run_benchmark (fun _ _ _ => "") false).num_examples := by
    rw [h.1, h.2.1]
    norm_num
  exact ⟨hpos, h.2.2.1 hpos⟩

/-- C3: a load failure and a missing `run_benchmark` attribute raise distinct
errors, and in neither case is a score report produced. -/
theorem C3_failures_are_errors (m : PyModule) (h : m.run_benchmark = none) :
    evaluate .failure = .error .loadError
  ∧ evaluate (.loaded m) = .error .contractError
  ∧ EvalError.loadError ≠ EvalError.contractError
  ∧ (evaluate .failure).isOk = false
  ∧ (evaluate (.loaded m)).isOk = false := by
  refine ⟨rfl, ?_, by decide, rfl, ?_⟩ <;>
    simp [evaluate, h, Except.isOk, Except.toBool]

/-- Witness for C3 at a concrete module lacking `run_benchmark`. -/
theorem C3_witness :
    ({ run_benchmark := none } : PyModule).run_benchmark = none
  ∧ (evaluate .failure = .error .loadError
    ∧ evaluate (.loaded { run_benchmark := none }) = .error .contractError
    ∧ EvalError.loadError ≠ EvalError.contractError
    ∧ (evaluate .failure).isOk = false
    ∧ (evaluate (.loaded { run_benchmark := none })).isOk = false) :=
  ⟨rfl, C3_failures_are_errors _ rfl⟩

/-- C4 counterexample: a candidate whose `run_benchmark` returns a dict whose
`success_rate` holds a value `float()` cannot convert (modelling `None`) makes
`evaluate` raise instead of returning a report with all fields `0.0`. -/
theorem C4_counterexample :
    evaluate (.loaded
      { run_benchmark := some { success_rate := some (PyVal.nonNum "None") } })
      = .error .typeError
  ∧ (evaluate (.loaded
      { run_benchmark := some { success_rate := some (PyVal.nonNum "None") } })).isOk
      = false :=
  ⟨rfl, rfl⟩

/-- C4 (amended): when the `success_rate` key is absent `evaluate` returns
normally with all three fields `0.0`; when the key holds a value `float()`
cannot convert, `evaluate` fails with the conversion error instead. -/
theorem C4_amended_default_or_raise (m m2 : PyModule)
    (metrics metrics2 : MetricsDict) (tag : String)
    (hrb : m.run_benchmark = some metrics)
    (hnone : metrics.success_rate = none)
    (hrb2 : m2.run_benchmark = some metrics2)
    (hnn : metrics2.success_rate = some (PyVal.nonNum tag)) :
    evaluate (.loaded m) =
      .ok { score := 0, combined_score := 0, success_rate := 0 }
  ∧ evaluate (.loaded m2) = .error .typeError := by
  constructor
  · simp [evaluate, hrb, hnone, pyFloat]
  · simp [evaluate, hrb2, hnn, pyFloat]

/-- Witness for the amended C4 at two concrete modules. -/
theorem C4_amended_witness :
    ({ run_benchmark := some { success_rate := none } } : PyModule).run_benchmark
      = some { success_rate := none }
  ∧ ({ success_rate := none } : MetricsDict).success_rate = none
  ∧ ({ run_benchmark := some { success_rate := some (PyVal.nonNum "oops") } }
      : PyModule).run_benchmark
      = some { success_rate := some (PyVal.nonNum "oops") }
  ∧ ({ success_rate := some (PyVal.nonNum "oops") } : MetricsDict).success_rate
      = some (PyVal.nonNum "oops")
  ∧ (evaluate (.loaded { run_benchmark := some { success_rate := none } }) =
      .ok { score := 0, combined_score := 0, success_rate := 0 }
    ∧ evaluate (.loaded
        { run_benchmark := some { success_rate := some (PyVal.nonNum "oops") } }) =
      .error .typeError) :=
  ⟨rfl, rfl, rfl, rfl, C4_amended_default_or_raise _ _ _ _ _ rfl rfl rfl rfl⟩

/-- C5: `_is_correct` holds iff the normalized expected substring occurs
contiguously inside the normalized answer; with the two reference examples. -/
theorem C5_matches_contract :
    (∀ answer expected_substring : String,
      _is_correct answer expected_substring = true ↔
        (_normalize expected_substring).data <:+: (_normalize answer).data)
  ∧ _is_correct "Paris is the capital of France." "paris" = true
  ∧ _is_correct "Rome" "paris" = false :=
  ⟨fun a e => by simp [_is_correct, strContains], by decide, by decide⟩

/-- C6: `_normalize` keeps exactly the alphanumeric and whitespace characters,
lower-cased, in their original order, dropping every other character; in
particular `"PARIS!"` and `"paris"` normalize identically. -/
theorem C6_normalize_contract :
    (∀ s : String, (_normalize s).data =
      (s.data.filter (fun c => c.isAlphanum || c.isWhitespace)).map
        Char.toLower)
  ∧ _normalize "PARIS!" = _normalize "paris" :=
  ⟨normalize_data, by decide⟩

/-- C7 counterexample: the normalizer is not idempotent on the string
`"İ"` (U+0130): the first pass keeps the letter and lower-cases it to
`"i"` followed by the combining mark U+0307, which the second pass drops. -/
theorem C7_counterexample :
    _normalize_unicode (_normalize_unicode "İ") ≠
      _normalize_unicode "İ" := by decide

/-- C7 (amended): the normalizer is idempotent on every string whose
characters are all ASCII (code point below 128). -/
theorem C7_normalize_idempotent_ascii (s : String)
    (h : ∀ c ∈ s.data, c.toNat < 128) :
    _normalize_unicode (_normalize_unicode s) = _normalize_unicode s := by
  rw [normalize_unicode_eq_ascii s h,
    normalize_unicode_eq_ascii (_normalize s) (normalize_chars_ascii s h)]
  apply String.ext
  rw [normalize_data, normalize_data]
  exact normalize_data_idem s.data

/-- Witness for the amended C7 at a concrete ASCII string. -/
theorem C7_ascii_witness :
    (∀ c ∈ ("PARIS! 123" : String).data, c.toNat < 128)
  ∧ _normalize_unicode (_normalize_unicode "PARIS! 123") =
      _normalize_unicode "PARIS! 123" :=
  ⟨by decide, C7_normalize_idempotent_ascii _ (by decide)⟩

/-- C8: the run returns exactly the solver response on the documented solver
input and system prompt, bounded by the configured solver `max_tokens`; the
solver call is the final completion call of the trace. -/
theorem C8_solver_call (llm : LLMOracle) (question : String) (cfg : AgentConfig)
    (v : ℚ) (hmt : cfg.solver.max_tokens = some v) :
    run_multi_agent llm question (some cfg) =
      llm cfg.solver.system_prompt (solverInput llm question cfg)
        (solverBudget cfg.solver)
  ∧ (run_multi_agent_trace llm question (some cfg)).1 =
      run_multi_agent llm question (some cfg)
  ∧ (run_multi_agent_trace llm question (some cfg)).2.getLast? =
      some ⟨cfg.solver.system_prompt, solverInput llm question cfg,
        solverBudget cfg.solver⟩
  ∧ solverBudget cfg.solver = pyInt v := by
  refine ⟨rfl, rfl, ?_, by rw [solverBudget, hmt]; rfl⟩
  show (_ ++ [_]).getLast? = _
  rw [List.getLast?_concat]
  rfl

/-- Witness for C8 at the literal `AGENT_CONFIG` and a constant oracle. -/
theorem C8_witness :
    AGENT_CONFIG.solver.max_tokens = some 32
  ∧ (run_multi_agent (fun _ _ _ => "ok") "Q" (some AGENT_CONFIG) =
      (fun _ _ _ => "ok" : LLMOracle) AGENT_CONFIG.solver.system_prompt
        (solverInput (fun _ _ _ => "ok") "Q" AGENT_CONFIG)
        (solverBudget AGENT_CONFIG.solver)
    ∧ (run_multi_agent_trace (fun _ _ _ => "ok") "Q" (some AGENT_CONFIG)).1 =
      run_multi_agent (fun _ _ _ => "ok") "Q" (some AGENT_CONFIG)
    ∧ (run_multi_agent_trace (fun _ _ _ => "ok") "Q" (some AGENT_CONFIG)).2.getLast? =
      some ⟨AGENT_CONFIG.solver.system_prompt,
        solverInput (fun _ _ _ => "ok") "Q" AGENT_CONFIG,
        solverBudget AGENT_CONFIG.solver⟩
    ∧ solverBudget AGENT_CONFIG.solver = pyInt 32) :=
  ⟨rfl, C8_solver_call _ _ _ _ rfl⟩

/-- C9: with `use_planner = false` the trace consists of the solver call
alone (zero planner calls, one completion call in total), and the answer is
invariant under changes to the planner sub-configuration. -/
theorem C9_planner_off (llm : LLMOracle) (question : String)
    (planner1 planner2 solver : StageConfig) :
    (run_multi_agent_trace llm question
        (some { use_planner := false, planner := planner1, solver := solver })).2 =
      [{ system_prompt := solver.system_prompt,
         user_content := "Question: " ++ question,
         max_tokens := solverBudget solver }]
  ∧ run_multi_agent llm question
        (some { use_planner := false, planner := planner1, solver := solver }) =
      run_multi_agent llm question
        (some { use_planner := false, planner := planner2, solver := solver }) := by
  constructor
  · show ([] ++ [_]) = _
    simp only [List.nil_append]
    rfl
  · rfl

/-- C10: a missing `max_tokens` key does not fail the run: the planner call
defaults to a budget of 128 tokens and the solver call to 64, while numeric
values present are used after `int()` truncation. -/
theorem C10_token_defaults (llm : LLMOracle) (question : String)
    (psp ssp : String) (v w : ℚ) :
    (run_multi_agent_trace llm question
        (some { use_planner := true,
                planner := { system_prompt := psp, max_tokens := none },
                solver := { system_prompt := ssp, max_tokens := none } })).2.map
      LLMCall.max_tokens = [128, 64]
  ∧ (run_multi_agent_trace llm question
        (some { use_planner := true,
                planner := { system_prompt := psp, max_tokens := some v },
                solver := { system_prompt := ssp, max_tokens := some w } })).2.map
      LLMCall.max_tokens = [pyInt v, pyInt w] := by
  have h128 : pyInt 128 = 128 := by norm_num [pyInt]
  have h64 : pyInt 64 = 64 := by norm_num [pyInt]
  constructor
  · show List.map _ (_ ++ [_]) = _
    simp [run_multi_agent_trace, plannerBudget, solverBudget, h128, h64]
  · show List.map _ (_ ++ [_]) = _
    simp [run_multi_agent_trace, plannerBudget, solverBudget]

end MultiAgent
